import Mathlib

/-!
Shallow embedding of the Evidence Reconciliation & Scoring
Engine (src/app/agents/curator.py, src/app/agents/scorer.py,
src/app/services/gemini_service.py, src/app/routes.py, src/config.py).

Python floats are modelled as exact rationals (ℚ); Python dicts whose keys
may be absent are modelled as structures of `Option` fields; the persistence
collaborator is modelled by passing the relevant query results explicitly.
-/

namespace FactChecker

/-!
Rational arithmetic: `Rat.add`, `Rat.sub`, `Rat.mul` and `Rat.inv` are
`@[irreducible]`, so code written with `+ - * /` on `ℚ` cannot be evaluated
by `decide`/`rfl`. The embedding therefore computes with the kernel-reducible
wrappers below, each proved equal to the standard operation (see `qadd_eq`,
`qsub_eq`, `qmul_eq`, `qdiv_eq` in the theorem section), so that theorems can
relate the code to specification formulas phrased with ordinary arithmetic.
-/

/-- Reducible rational addition (equals `a + b`). -/
def qadd (a b : ℚ) : ℚ := mkRat (a.num * b.den + b.num * a.den) (a.den * b.den)

/-- Reducible rational subtraction (equals `a - b`). -/
def qsub (a b : ℚ) : ℚ := mkRat (a.num * b.den - b.num * a.den) (a.den * b.den)

/-- Reducible rational multiplication (equals `a * b`). -/
def qmul (a b : ℚ) : ℚ := mkRat (a.num * b.num) (a.den * b.den)

/-- Reducible rational division (equals `a / b`, with `a / 0 = 0`). -/
def qdiv (a b : ℚ) : ℚ := qmul a (Rat.divInt (b.den : ℤ) b.num)

/-- Python `needle in hay` substring test on strings. -/
def strIn (needle hay : String) : Bool :=
  hay.data.tails.any (fun t => needle.data.isPrefixOf t)

/-- Python `s.lower()` (ASCII; `String.toLower` itself is not
kernel-reducible, so the character map is applied directly). -/
def strLower (s : String) : String :=
  String.mk (s.data.map Char.toLower)

/-- Characters kept by the substitution re.sub of pattern [\d\W]+ with a
space: ASCII letters and
underscore (word characters minus digits). -/
def isKeptChar (c : Char) : Bool :=
  c.isAlpha || c = '_'

/-- Words per the Python pipeline re.sub, strip, split: the maximal runs of
kept characters of the lower-cased string. -/
def wordsOf (s : String) : List String :=
  (((strLower s).data.splitOnP (fun c => !isKeptChar c)).filter (· ≠ [])).map
    (fun l => String.mk l)

/-- curator.py `CuratorAgent._is_same_fact`: word-overlap similarity
`|A∩B| / max(|A|,|B|) > 0.5` on the digit- and punctuation-stripped,
lower-cased word sets; `False` when either set is empty. -/
def is_same_fact (fact1 fact2 : String) : Bool :=
  let words1 := (wordsOf fact1).dedup
  let words2 := (wordsOf fact2).dedup
  if words1 = [] ∨ words2 = [] then false
  else
    decide (qdiv ((words1.filter (· ∈ words2)).length : ℚ)
      ((max words1.length words2.length : ℕ) : ℚ) > mkRat 1 2)

/-- Consume the leading `(?:,\d{3})*` comma groups: a comma followed by three
digits, repeated greedily (fuelled recursion; fuel bounds the input length). -/
def commaGroups : Nat → List Char → List Char × List Char
  | 0, l => ([], l)
  | fuel + 1, l =>
    match l with
    | ',' :: d1 :: d2 :: d3 :: rest =>
      if d1.isDigit && d2.isDigit && d3.isDigit then
        let (g, r) := commaGroups fuel rest
        (',' :: d1 :: d2 :: d3 :: g, r)
      else ([], l)
    | _ => ([], l)

/-- Consume an optional `(?:\.\d+)?` decimal part. -/
def decimalPart : List Char → List Char × List Char
  | '.' :: d :: rest =>
    if d.isDigit then
      ('.' :: d :: rest.takeWhile Char.isDigit, rest.dropWhile Char.isDigit)
    else ([], '.' :: d :: rest)
  | l => ([], l)

/-- Fuelled scanner for re.findall with the numeric pattern, with
(`allowDec = true`) or without (`allowDec = false`) the optional decimal
part: leftmost, non-overlapping numeric tokens. -/
def scanNumbers (allowDec : Bool) : Nat → List Char → List String
  | 0, _ => []
  | _, [] => []
  | fuel + 1, c :: rest =>
    if c.isDigit then
      let ds := (c :: rest).takeWhile Char.isDigit
      let r1 := (c :: rest).dropWhile Char.isDigit
      let (gs, r2) := commaGroups fuel r1
      let (dec, r3) := if allowDec then decimalPart r2 else ([], r2)
      String.mk (ds ++ gs ++ dec) :: scanNumbers allowDec fuel r3
    else scanNumbers allowDec fuel rest

/-- All numeric tokens of a string, per the curator regexes. -/
def findNumbers (allowDec : Bool) (s : String) : List String :=
  scanNumbers allowDec s.data.length s.data

/-- Value of a digit character. -/
def digitVal (c : Char) : ℕ := c.toNat - 48

/-- Python float of a scanned numeric token with its thousands separators
removed, as an exact rational. -/
def parseNum (tok : String) : ℚ :=
  let t := tok.data.filter (· ≠ ',')
  let ip := t.takeWhile (· ≠ '.')
  let rest := t.dropWhile (· ≠ '.')
  let intVal : ℕ := ip.foldl (fun a c => a * 10 + digitVal c) 0
  match rest with
  | [] => (intVal : ℚ)
  | _ :: frac =>
    qadd (intVal : ℚ) (qdiv ((frac.foldl (fun a c => a * 10 + digitVal c) 0 : ℕ) : ℚ)
      ((10 ^ frac.length : ℕ) : ℚ))

/-- The rational values of the numeric tokens of a string
(decimal-and-thousands pattern, as used by `_resolve_fact_classification`). -/
def numsOf (s : String) : List ℚ :=
  (findNumbers true s).map parseNum

/-- curator.py `CuratorAgent._numbers_within_tolerance`: within 30% of the
larger magnitude; `0 vs 0` counts as within tolerance. -/
def numbers_within_tolerance (num1 num2 : ℚ) : Bool :=
  if num1 = 0 ∧ num2 = 0 then true
  else decide (qmul (qdiv |qsub num1 num2| (max |num1| |num2|)) 100 < 30)

/-- Classification outcome of the curator resolution step (the Python
string values are match and conflict). -/
inductive Classification where
  | matched
  | conflict
deriving DecidableEq, Repr

/-- curator.py `EXPRESSIONS` table, in insertion (iteration) order; an upper
bound of `none` models the float infinity. -/
def EXPRESSIONS : List (String × ℚ × Option ℚ) :=
  [("few", 0, some 20), ("some", 5, some 50), ("any", 0, some 20),
   ("various", 20, some 50), ("many", 20, some 200), ("several", 50, some 200),
   ("lot", 50, some 200), ("lots", 50, some 200), ("huge", 200, none),
   ("massive", 200, none), ("big", 200, none)]

/-- `min_val <= num <= max_val` with `max_val = ∞` modelled as `none`. -/
def exprInRange (lo : ℚ) (hi : Option ℚ) (num : ℚ) : Bool :=
  match hi with
  | some h => decide (lo ≤ num ∧ num ≤ h)
  | none => decide (lo ≤ num)

/-- The expression-table loop of `_check_ambiguous_expressions`: first entry
whose keyword occurs (as a substring) in one fact while the other fact has a
number wins. -/
def checkExprLoop : List (String × ℚ × Option ℚ) → String → String →
    List String → List String → Option Bool
  | [], _, _, _, _ => none
  | (kw, lo, hi) :: rest, f1, f2, ns1, ns2 =>
    if strIn kw f1 && !ns2.isEmpty then
      some (exprInRange lo hi (parseNum (ns2.headD "")))
    else if strIn kw f2 && !ns1.isEmpty then
      some (exprInRange lo hi (parseNum (ns1.headD "")))
    else checkExprLoop rest f1 f2 ns1 ns2

/-- curator.py `CuratorAgent._check_ambiguous_expressions`: `some true`
(match), `some false` (no match), `none` (not applicable). Numbers are
extracted with the no-decimals numeric pattern. -/
def check_ambiguous_expressions (fact1 fact2 : String) : Option Bool :=
  checkExprLoop EXPRESSIONS (strLower fact1) (strLower fact2)
    (findNumbers false fact1) (findNumbers false fact2)

/-- curator.py `CuratorAgent._resolve_fact_classification`: if both facts
carry numbers the first pair decides by the 30% rule (the loop returns on its
first iteration in either branch); otherwise the ambiguous-expression table;
otherwise `conflict`. -/
def resolve_fact_classification (fact1 fact2 : String) : Classification :=
  match numsOf fact1, numsOf fact2 with
  | n1 :: _, n2 :: _ =>
    if numbers_within_tolerance n1 n2 then .matched else .conflict
  | _, _ =>
    match check_ambiguous_expressions fact1 fact2 with
    | some b => if b then .matched else .conflict
    | none => .conflict

/-- Python truthy-`or` on an optional string and a fallback:
`a or b` returns `a` when `a` is present and non-empty, else `b`. -/
def pyOr (a : Option String) (b : String) : String :=
  match a with
  | some s => if s = "" then b else s
  | none => b

/-- A fact entry as handled by the curator and scorer: either a bare string
or a dict; the possible dict keys are modelled as optional fields. -/
structure FactDict where
  original : Option String := none
  comparison : Option String := none
  original_fact : Option String := none
  comparison_fact : Option String := none
  fact : Option String := none
  confidence : Option String := none
deriving DecidableEq, Repr

/-- `isinstance(fact, dict)` dichotomy for fact entries. -/
inductive FactVal where
  | str (s : String)
  | dict (d : FactDict)
deriving DecidableEq, Repr

/-- curator.py `CuratorAgent._extract_fact_text`:
for dicts the get of original_fact, or else the get of fact with empty
default; str(fact) otherwise. -/
def extract_fact_text (f : FactVal) : String :=
  match f with
  | .dict d => pyOr d.original_fact (d.fact.getD "")
  | .str s => s

/-- The original text of a conflict entry as read by
`_find_dual_classifications`: the get of original for dicts, str(conflict)
otherwise. -/
def conflictOriginal (f : FactVal) : String :=
  match f with
  | .dict d => d.original.getD ""
  | .str s => s

/-- The comparison text of a conflict entry as read by
`_find_dual_classifications`: the get of comparison for dicts, empty
otherwise. -/
def conflictComparison (f : FactVal) : String :=
  match f with
  | .dict d => d.comparison.getD ""
  | .str _ => ""

/-- curator.py `CuratorAgent._find_dual_classifications`: for each matching
fact, the first conflicting fact whose `original` or `comparison` text passes
the same-fact test yields a `(match_text, conflict_comparison or
conflict_original)` pair (the inner loop breaks after the first hit). -/
def find_dual_classifications (matching_facts conflicting_facts : List FactVal) :
    List (String × String) :=
  matching_facts.filterMap fun m =>
    let match_text := extract_fact_text m
    (conflicting_facts.find? fun c =>
        is_same_fact match_text (conflictOriginal c) ||
        is_same_fact match_text (conflictComparison c)).map fun c =>
      (match_text, pyOr (some (conflictComparison c)) (conflictOriginal c))

/-- curator.py `CuratorAgent._facts_match`: substring containment of the
resolved pair texts against the own text fields of the item, in both
directions. -/
def facts_match (fact_item : FactVal) (original_text comparison_text : String) :
    Bool :=
  match fact_item with
  | .dict d =>
    let item_orig := pyOr d.original (d.original_fact.getD "")
    let item_comp := pyOr d.comparison (d.comparison_fact.getD "")
    (strIn original_text item_orig || strIn item_orig original_text) &&
      (strIn comparison_text item_comp || strIn item_comp comparison_text)
  | .str s => strIn original_text s || strIn comparison_text s

/-- The `analysis_details` dict attached to an Analysis by
`ScorerAgent.compare_and_score`. -/
structure DetailsR where
  unique_to_original : List FactVal := []
  unique_to_comparison : List FactVal := []
  analysis_notes : String := ""
  relevance_score : ℚ := mkRat 1 2
  source_type : String := "news_general"
  source_domain : String := ""
deriving DecidableEq, Repr

/-- An analysis dict as passed between the agents (and persisted). -/
structure AnalysisR where
  comparison_article_id : ℕ
  accuracy_score : ℚ
  matching_facts : List FactVal
  conflicting_facts : List FactVal
  analysis_details : DetailsR
deriving DecidableEq, Repr

/-- The dual-classification resolution loop of
`CuratorAgent.review_and_reconcile_analyses`: each resolved pair removes the
`facts_match`-ing entries from the conflicting list (on `match`) or from the
matching list (on `conflict`). -/
def applyResolutions (dual : List (String × String))
    (mc : List FactVal × List FactVal) : List FactVal × List FactVal :=
  dual.foldl (fun mc p =>
    match resolve_fact_classification p.1 p.2 with
    | .matched => (mc.1, mc.2.filter (fun c => !facts_match c p.1 p.2))
    | .conflict => (mc.1.filter (fun m => !facts_match m p.1 p.2), mc.2)) mc

/-- curator.py `CuratorAgent.review_and_reconcile_analyses`: per analysis,
detect dual classifications on the incoming fact lists, then resolve each
pair; the other fields of the analysis are untouched. -/
def review_and_reconcile_analyses (analyses : List AnalysisR) : List AnalysisR :=
  analyses.map fun analysis =>
    let dual := find_dual_classifications analysis.matching_facts
      analysis.conflicting_facts
    let mc := applyResolutions dual
      (analysis.matching_facts, analysis.conflicting_facts)
    { analysis with matching_facts := mc.1, conflicting_facts := mc.2 }

/-- Sum of a list of rationals (`sum(...)` in Python), via `qadd`. -/
def sumQ (l : List ℚ) : ℚ := l.foldl qadd 0

/-- config.py `Config.SOURCE_WEIGHTS`. -/
def SOURCE_WEIGHTS : List (String × ℚ) :=
  [("official", 1), ("news_major", mkRat 4 5), ("news_general", mkRat 3 5),
   ("blog", mkRat 2 5), ("social", mkRat 3 10)]

/-- `Config.SOURCE_WEIGHTS.get(source_type, 0.5)`. -/
def weightFor (source_type : String) : ℚ :=
  ((SOURCE_WEIGHTS.find? (fun w => w.1 = source_type)).map (fun w => w.2)).getD
    (mkRat 1 2)

/-- config.py `Config.CONFIDENCE_THRESHOLDS`, in the evaluation order
high, medium, low used by `_determine_confidence_level`:
`(level, min_sources, min_agreement)`. -/
def CONFIDENCE_THRESHOLDS : List (String × ℕ × ℚ) :=
  [("high", 5, mkRat 4 5), ("medium", 3, mkRat 3 5), ("low", 0, 0)]

/-- Python `round(x)` to an integer, as half-up rounding on the exact
rational (`float` ties-to-even can differ only on exact halves). -/
def qroundInt (q : ℚ) : ℤ := (qadd q (mkRat 1 2)).floor

/-- Python `round(x, 2)` modelled on the exact rational. -/
def roundTo2 (q : ℚ) : ℚ := qdiv ((qroundInt (qmul q 100) : ℤ) : ℚ) 100

/-- Python `f"{x:.1f}"` for the non-negative scores appearing in summaries. -/
def fmtScore1 (q : ℚ) : String :=
  let n := qroundInt (qmul q 10)
  toString (n / 10) ++ "." ++ toString (n % 10)

/-- The response dict of the external comparator as consumed by
`ScorerAgent.compare_and_score` (`relevance_score` key may be absent). -/
structure ComparisonResult where
  matching : List FactVal := []
  conflicting : List FactVal := []
  unique_to_original : List FactVal := []
  unique_to_comparison : List FactVal := []
  analysis_notes : String := ""
  relevance_score : Option ℚ := none
deriving DecidableEq, Repr

/-- The comparison Article record fields used by the scorer. -/
structure ArticleR where
  id : ℕ
  url : String := ""
  source_type : String := "news_general"
  source_domain : String := ""
deriving DecidableEq, Repr

/-- scorer.py `ScorerAgent._calculate_comparison_score` (`source_type` and
`relevance_score` are accepted but unused by the body, as in the source). -/
def calculate_comparison_score (comparison_result : ComparisonResult)
    (source_type : String) (relevance_score : ℚ) : ℚ :=
  let matching_facts := comparison_result.matching
  let conflicting_facts := comparison_result.conflicting
  let num_matching := matching_facts.length
  let num_conflicting := conflicting_facts.length
  let total_facts := num_matching + num_conflicting
  if total_facts = 0 then 50
  else
    let agreement_percentage := qmul (qdiv (num_matching : ℚ) (total_facts : ℚ)) 100
    let confidence_weight := matching_facts.foldl (fun acc fact =>
      match fact with
      | .dict d =>
        let conf := d.confidence.getD "medium"
        if conf = "high" then qadd acc 1
        else if conf = "medium" then qadd acc (mkRat 7 10)
        else qadd acc (mkRat 1 2)
      | .str _ => acc) 0
    let agreement_percentage :=
      if 0 < num_matching then
        qmul agreement_percentage (qdiv confidence_weight (num_matching : ℚ))
      else agreement_percentage
    min 100 agreement_percentage

/-- scorer.py `ScorerAgent.compare_and_score`; the external
`gemini.compare_facts` call is modelled by taking its result as input. -/
def compare_and_score (comparison_result : ComparisonResult)
    (comparison_article : ArticleR) : Option AnalysisR :=
  let relevance_score := comparison_result.relevance_score.getD (mkRat 1 2)
  if relevance_score < mkRat 2 5 then none
  else some
    { comparison_article_id := comparison_article.id
      accuracy_score := calculate_comparison_score comparison_result
        comparison_article.source_type relevance_score
      matching_facts := comparison_result.matching
      conflicting_facts := comparison_result.conflicting
      analysis_details :=
        { unique_to_original := comparison_result.unique_to_original
          unique_to_comparison := comparison_result.unique_to_comparison
          analysis_notes := comparison_result.analysis_notes
          relevance_score := relevance_score
          source_type := comparison_article.source_type
          source_domain := comparison_article.source_domain } }

/-- scorer.py `ScorerAgent._calculate_overall_score`. -/
def calculate_overall_score (analyses : List AnalysisR) : ℚ :=
  if analyses.isEmpty then 0
  else
    let weighted_sum := analyses.foldl (fun acc a =>
      qadd acc (qmul a.accuracy_score (weightFor a.analysis_details.source_type))) 0
    let total_weight := analyses.foldl (fun acc a =>
      qadd acc (weightFor a.analysis_details.source_type)) 0
    if total_weight = 0 then 0
    else roundTo2 (qdiv weighted_sum total_weight)

/-- scorer.py `ScorerAgent._determine_confidence_level`. -/
def determine_confidence_level (analyses : List AnalysisR) : String :=
  let num_sources := analyses.length
  let agreement_ratio : ℚ :=
    if analyses.isEmpty then 0
    else qdiv (qdiv (sumQ (analyses.map (fun a => a.accuracy_score)))
      (num_sources : ℚ)) 100
  match CONFIDENCE_THRESHOLDS.find? (fun t =>
      num_sources ≥ t.2.1 ∧ agreement_ratio ≥ t.2.2) with
  | some t => t.1
  | none => "low"

/-- scorer.py `ScorerAgent._generate_summary`. -/
def generate_summary (analyses : List AnalysisR) (overall_score : ℚ) : String :=
  let num_sources := analyses.length
  let verdict :=
    if overall_score ≥ 80 then "highly accurate"
    else if overall_score ≥ 60 then "moderately accurate"
    else if overall_score ≥ 40 then "questionable accuracy"
    else "low accuracy"
  let total_matching := (analyses.map (fun a => a.matching_facts.length)).sum
  let total_conflicting := (analyses.map (fun a => a.conflicting_facts.length)).sum
  "Based on analysis of " ++ toString num_sources ++ " source(s), " ++
    "the article appears to be " ++ verdict ++ " " ++
    "with an overall score of " ++ fmtScore1 overall_score ++ "/100. " ++
    "Found " ++ toString total_matching ++ " corroborating fact(s) and " ++
    toString total_conflicting ++ " conflicting claim(s) across sources."

/-- scorer.py `ScorerAgent._generate_recommendations`. -/
def generate_recommendations (score : ℚ) (confidence : String)
    (analyses : List AnalysisR) : String :=
  let recs :=
    if score ≥ 80 ∧ confidence = "high" then
      ["The information appears reliable and well-supported by multiple sources."]
    else if score ≥ 60 then
      ["The information has moderate support. Consider seeking additional sources for verification."]
    else
      ["Exercise caution: The information has limited support or conflicting reports."]
  let has_official := analyses.any (fun a =>
    a.analysis_details.source_type = "official")
  let recs := if has_official then recs
    else recs ++
      ["No official sources were found. Consider checking government or institutional sources."]
  let source_types := (analyses.map (fun a => a.analysis_details.source_type)).dedup
  let recs := if source_types.length < 2 then recs ++
      ["Limited source diversity. Cross-reference with different types of sources."]
    else recs
  String.intercalate " " recs

/-- One value of the `_get_score_breakdown` result dict. -/
structure BreakdownEntry where
  count : ℕ
  average_score : ℚ
  scores : List ℚ
deriving DecidableEq, Repr

/-- Append a score under a key of the breakdown dict (insertion-ordered). -/
def upsertScore : List (String × List ℚ) → String → ℚ → List (String × List ℚ)
  | [], st, s => [(st, [s])]
  | (k, v) :: rest, st, s =>
    if k = st then (k, v ++ [s]) :: rest else (k, v) :: upsertScore rest st s

/-- scorer.py `ScorerAgent._get_score_breakdown`. -/
def get_score_breakdown (analyses : List AnalysisR) :
    List (String × BreakdownEntry) :=
  let groups := analyses.foldl (fun acc a =>
    upsertScore acc a.analysis_details.source_type a.accuracy_score) []
  groups.map fun g =>
    (g.1, ⟨g.2.length,
      if g.2.isEmpty then 0 else qdiv (sumQ g.2) (g.2.length : ℚ), g.2⟩)

/-- Increment a key of the distribution dict (insertion-ordered). -/
def upsertCount : List (String × ℕ) → String → List (String × ℕ)
  | [], st => [(st, 1)]
  | (k, n) :: rest, st =>
    if k = st then (k, n + 1) :: rest else (k, n) :: upsertCount rest st

/-- scorer.py `ScorerAgent._get_source_distribution`. -/
def get_source_distribution (analyses : List AnalysisR) : List (String × ℕ) :=
  analyses.foldl (fun acc a => upsertCount acc a.analysis_details.source_type) []

/-- The `fact_verification_details` dict. -/
structure FactVerification where
  total_matching_facts : ℕ
  total_conflicting_facts : ℕ
  verification_ratio : ℚ
deriving DecidableEq, Repr

/-- scorer.py `ScorerAgent._get_fact_verification_details`. -/
def get_fact_verification_details (analyses : List AnalysisR) : FactVerification :=
  let total_matching := (analyses.map (fun a => a.matching_facts.length)).sum
  let total_conflicting := (analyses.map (fun a => a.conflicting_facts.length)).sum
  { total_matching_facts := total_matching
    total_conflicting_facts := total_conflicting
    verification_ratio :=
      if 0 < total_matching + total_conflicting then
        qdiv (total_matching : ℚ) ((total_matching + total_conflicting : ℕ) : ℚ)
      else 0 }

/-- The `detailed_results` JSON blob of a Report. -/
structure DetailedResults where
  individual_analyses : List AnalysisR
  score_breakdown : List (String × BreakdownEntry)
  source_distribution : List (String × ℕ)
  fact_verification_details : FactVerification
deriving DecidableEq, Repr

/-- The four-key `detailed_results` dict built by the scorer and the merge. -/
def mkDetailedResults (analyses : List AnalysisR) : DetailedResults :=
  { individual_analyses := analyses
    score_breakdown := get_score_breakdown analyses
    source_distribution := get_source_distribution analyses
    fact_verification_details := get_fact_verification_details analyses }

/-- models.py `Report` (columns used by the engine; DB column defaults
`is_merged=False`, `merge_count=0`, `analysis_attempts=1`; the `last_updated`
timestamp is not modelled). -/
structure ReportR where
  original_article_id : ℕ
  overall_score : ℚ
  confidence_level : String
  sources_checked : ℕ
  summary : String
  recommendations : String
  detailed_results : DetailedResults
  is_merged : Bool := false
  merge_count : ℕ := 0
  analysis_attempts : ℕ := 1
deriving DecidableEq, Repr

/-- scorer.py `ScorerAgent._create_no_sources_report`. -/
def create_no_sources_report (original_article_id : ℕ) : ReportR :=
  { original_article_id := original_article_id
    overall_score := 0
    confidence_level := "low"
    sources_checked := 0
    summary := "Unable to verify: No corroborating sources were found."
    recommendations := "The article could not be fact-checked due to lack of available sources. Exercise extreme caution with this information."
    detailed_results :=
      { individual_analyses := []
        score_breakdown := []
        source_distribution := []
        fact_verification_details :=
          { total_matching_facts := 0
            total_conflicting_facts := 0
            verification_ratio := 0 } } }

/-- scorer.py `ScorerAgent.generate_final_report`. -/
def generate_final_report (original_article_id : ℕ)
    (analyses : List AnalysisR) : ReportR :=
  if analyses.isEmpty then create_no_sources_report original_article_id
  else
    let overall_score := calculate_overall_score analyses
    let confidence_level := determine_confidence_level analyses
    { original_article_id := original_article_id
      overall_score := overall_score
      confidence_level := confidence_level
      sources_checked := analyses.length
      summary := generate_summary analyses overall_score
      recommendations := generate_recommendations overall_score confidence_level
        analyses
      detailed_results := mkDetailedResults analyses }

/-- curator.py `CuratorAgent.merge_reports`; the persistence query
`Analysis.query.filter_by(original_article_id=...)` is modelled by the
`persisted_analyses` argument. -/
def merge_reports (existing_report : ReportR)
    (persisted_analyses new_analyses : List AnalysisR) : ReportR × ℕ :=
  if new_analyses.isEmpty then (existing_report, 0)
  else
    let all_analyses := persisted_analyses ++ new_analyses
    let overall_score := calculate_overall_score all_analyses
    let confidence_level := determine_confidence_level all_analyses
    ({ existing_report with
        overall_score := overall_score
        confidence_level := confidence_level
        sources_checked := all_analyses.length
        summary := generate_summary all_analyses overall_score
        recommendations := generate_recommendations overall_score
          confidence_level all_analyses
        detailed_results := mkDetailedResults all_analyses
        is_merged := true
        merge_count := existing_report.merge_count + 1 },
     new_analyses.length)

/-- routes.py `analyze_article`, step 3 persistence plus step 4 merge branch
(lines 314-340): each fresh analysis is committed to the database inside the
per-source loop, then the batch is reviewed by the curator, then
`merge_reports` is called; its internal query therefore already returns the
just-persisted new analyses. -/
def analyze_merge_step (existing_report : ReportR)
    (db_analyses new_analyses : List AnalysisR) : ReportR × ℕ :=
  let persisted := db_analyses ++ new_analyses
  let reviewed := review_and_reconcile_analyses new_analyses
  merge_reports existing_report persisted reviewed

/-- A source candidate dict as handled by `filter_duplicate_sources`
(fields beyond `url` ride along untouched). -/
structure SourceR where
  url : Option String := none
  title : Option String := none
deriving DecidableEq, Repr

/-- The loop of curator.py `CuratorAgent.filter_duplicate_sources`:
`seen_urls` accumulates the URLs of kept sources only. The persistence query
`Article.query.filter_by(url=url).first()` is modelled by `articleIdByUrl`. -/
def filterDupGo (original_article_url : String) (analyzed_article_ids : List ℕ)
    (articleIdByUrl : String → Option ℕ) :
    List SourceR → List String → List SourceR
  | [], _ => []
  | source :: rest, seen_urls =>
    match source.url with
    | none => filterDupGo original_article_url analyzed_article_ids
        articleIdByUrl rest seen_urls
    | some url =>
      if url = "" then
        filterDupGo original_article_url analyzed_article_ids articleIdByUrl
          rest seen_urls
      else if url ∈ seen_urls then
        filterDupGo original_article_url analyzed_article_ids articleIdByUrl
          rest seen_urls
      else if url = original_article_url then
        filterDupGo original_article_url analyzed_article_ids articleIdByUrl
          rest seen_urls
      else if (match articleIdByUrl url with
          | some aid => decide (aid ∈ analyzed_article_ids)
          | none => false) then
        filterDupGo original_article_url analyzed_article_ids articleIdByUrl
          rest seen_urls
      else
        source :: filterDupGo original_article_url analyzed_article_ids
          articleIdByUrl rest (url :: seen_urls)

/-- curator.py `CuratorAgent.filter_duplicate_sources`. -/
def filter_duplicate_sources (sources : List SourceR)
    (original_article_url : String) (analyzed_article_ids : List ℕ)
    (articleIdByUrl : String → Option ℕ) : List SourceR :=
  filterDupGo original_article_url analyzed_article_ids articleIdByUrl
    sources []

/-- A hierarchical-facts entry (`what_facts` / `claims` list element):
a dict with the keys read by the query fallback, or a bare value. -/
structure HFactDict where
  event : Option String := none
  claim : Option String := none
  importance : Option String := none
deriving DecidableEq, Repr

/-- `isinstance(fact, dict)` dichotomy for hierarchical-facts entries. -/
inductive HFactVal where
  | str (s : String)
  | dict (d : HFactDict)
deriving DecidableEq, Repr

/-- The hierarchical facts dict, holding the what_facts and claims lists. -/
structure FactsR where
  what_facts : List HFactVal := []
  claims : List HFactVal := []
deriving DecidableEq, Repr

/-- The query dict returned by `optimize_search_query` and its helpers. -/
structure QueryData where
  primary_query : String
  alternative_queries : List String := []
  keywords : List String := []
deriving DecidableEq, Repr

/-- A decoded JSON object for the query-optimization response: each expected
key may be absent. -/
structure RawQueryData where
  primary_query : Option String := none
  alternative_queries : Option (List String) := none
  keywords : Option (List String) := none
deriving DecidableEq, Repr

/-- Outcome of the external generator call in
`GeminiService.optimize_search_query`: the call raises (`failure`), or it
returns text whose fenced JSON payload decodes to `some` object or fails to
decode (`output none`, a `json.JSONDecodeError`). -/
inductive GenOutcome where
  | failure
  | output (decoded : Option RawQueryData)
deriving DecidableEq, Repr

/-- Python split on period, first element: the prefix before the first
period. -/
def firstSentence (s : String) : String :=
  String.mk (s.data.takeWhile (fun c => c ≠ '.'))

/-- gemini_service.py `GeminiService._parse_query_optimization_response`,
with `json.loads` modelled by the already-decoded argument: missing keys are
filled with empty defaults; a decode error yields the empty shape (the
`parse_error` diagnostic field is not modelled). -/
def parse_query_optimization_response (decoded : Option RawQueryData) :
    QueryData :=
  match decoded with
  | some q =>
    { primary_query := q.primary_query.getD ""
      alternative_queries := q.alternative_queries.getD []
      keywords := q.keywords.getD [] }
  | none => { primary_query := "", alternative_queries := [], keywords := [] }

/-- gemini_service.py `GeminiService._create_fallback_query`. -/
def create_fallback_query (facts : FactsR) : QueryData :=
  let query_parts := (facts.what_facts.take 2).foldl (fun acc fact =>
    match fact with
    | .dict d =>
      let event := d.event.getD ""
      if event = "" then acc else acc ++ [firstSentence event]
    | .str _ => acc) []
  let query_parts := (facts.claims.take 1).foldl (fun acc fact =>
    match fact with
    | .dict d =>
      let claim_text := d.claim.getD ""
      if claim_text = "" then acc else acc ++ [firstSentence claim_text]
    | .str _ => acc) query_parts
  let primary_query :=
    if query_parts.isEmpty then "news"
    else String.intercalate " " (query_parts.take 2)
  { primary_query := primary_query, alternative_queries := [], keywords := [] }

/-- gemini_service.py `GeminiService.optimize_search_query`: parse the
generator output, falling back only when the call itself raised. -/
def optimize_search_query (facts : FactsR) (outcome : GenOutcome) : QueryData :=
  match outcome with
  | .output decoded => parse_query_optimization_response decoded
  | .failure => create_fallback_query facts

/-!
Specification-side definitions: the following definitions restate claim
formulas in the vocabulary of the spec, to be compared with the embedded code
above. They are not translations of the source.
-/

/-- Spec-side (C2): the batch-duplicate rule reads "URLs already seen earlier
in the same batch", so here `seen` records every URL encountered, whatever
became of its entry. -/
def sourceFilterSpecGo (original_article_url : String)
    (analyzed_article_ids : List ℕ) (articleIdByUrl : String → Option ℕ) :
    List SourceR → List String → List SourceR
  | [], _ => []
  | source :: rest, seen =>
    match source.url with
    | none => sourceFilterSpecGo original_article_url analyzed_article_ids
        articleIdByUrl rest seen
    | some url =>
      if url = "" then
        sourceFilterSpecGo original_article_url analyzed_article_ids
          articleIdByUrl rest seen
      else if decide (url ∈ seen) || decide (url = original_article_url) ||
          (match articleIdByUrl url with
           | some aid => decide (aid ∈ analyzed_article_ids)
           | none => false) then
        sourceFilterSpecGo original_article_url analyzed_article_ids
          articleIdByUrl rest (url :: seen)
      else
        source :: sourceFilterSpecGo original_article_url analyzed_article_ids
          articleIdByUrl rest (url :: seen)

/-- Spec-side (C2): order-preserving filter dropping (a) entries without a
URL, (b) URLs already seen earlier in the batch, (c) the URL of the original
article, (d) URLs of already-analyzed articles. -/
def sourceFilterSpec (sources : List SourceR) (original_article_url : String)
    (analyzed_article_ids : List ℕ) (articleIdByUrl : String → Option ℕ) :
    List SourceR :=
  sourceFilterSpecGo original_article_url analyzed_article_ids articleIdByUrl
    sources []

/-- Spec-side (C3): the first sentence of the non-empty event text of a
WhatFact entry. -/
def eventFirstSentence : HFactVal → Option String
  | .dict d => if d.event.getD "" = "" then none
      else some (firstSentence (d.event.getD ""))
  | .str _ => none

/-- Spec-side (C3): the first sentence of the non-empty claim text of a
Claim entry. -/
def claimFirstSentence : HFactVal → Option String
  | .dict d => if d.claim.getD "" = "" then none
      else some (firstSentence (d.claim.getD ""))
  | .str _ => none

/-- Spec-side (C3, amended): the deterministic fallback query — first
sentences of the events of the first two WhatFact dict entries, then of the
first Claim dict entry, importance ignored; the first two collected parts
joined by a space; `"news"` when none qualify. -/
def fallbackQuerySpec (facts : FactsR) : String :=
  let parts := (facts.what_facts.take 2).filterMap eventFirstSentence ++
    (facts.claims.take 1).filterMap claimFirstSentence
  if parts = [] then "news" else String.intercalate " " (parts.take 2)

/-- Spec-side (C4, as claimed): per-matching-fact confidence weight
`{high: 1.0, medium: 0.7, low: 0.5}`, `0.7` for any fact carrying no
confidence label. -/
def claimedConfidenceWeight : FactVal → ℚ
  | .str _ => 7/10
  | .dict d =>
    match d.confidence with
    | none => 7/10
    | some c => if c = "high" then 1 else if c = "medium" then 7/10 else 1/2

/-- Spec-side (C4, as claimed): `(|matching|/total)*100`, multiplied by the
average claimed confidence weight when `|matching| > 0`, clamped to
`[0, 100]`; `50.0` when `total = 0`. -/
def claimedComparisonScore (comparison_result : ComparisonResult) : ℚ :=
  let m := comparison_result.matching.length
  let c := comparison_result.conflicting.length
  if m + c = 0 then 50
  else
    let pct : ℚ := (m : ℚ) / ((m + c : ℕ) : ℚ) * 100
    let pct := if 0 < m then
        pct * ((comparison_result.matching.map claimedConfidenceWeight).sum / m)
      else pct
    min 100 (max 0 pct)

/-- Spec-side (C4, amended): the weight the code actually accumulates per
matching fact — dict facts as in the claimed table except that any label
other than `high`/`medium` (including `low`) weighs `0.5`, and bare-string
facts contribute `0`. -/
def factConfidenceWeight : FactVal → ℚ
  | .str _ => 0
  | .dict d =>
    let conf := d.confidence.getD "medium"
    if conf = "high" then 1 else if conf = "medium" then 7/10 else 1/2

/-!
Concrete fixtures used by the counterexamples and bug witnesses.
-/

/-- Fixture (C2): the persisted-article lookup in which only url b resolves,
to article id 2. -/
def exArticleIdByUrl : String → Option ℕ :=
  fun u => if u = "b" then some 2 else none

/-- Fixture (C2): the four-entry batch of the filter-precedence example. -/
def exSources : List SourceR :=
  [{ url := some "a" }, { url := some "a" }, { url := some "orig" },
   { url := some "b" }]

/-- Fixture (C3): one low-importance WhatFact, no claims. -/
def exFactsLow : FactsR :=
  { what_facts :=
      [.dict { event := some "storm hits city", importance := some "low" }] }

/-- Fixture (C3): a non-empty FactSet with one high-importance WhatFact. -/
def exFactsHigh : FactsR :=
  { what_facts :=
      [.dict { event := some "x", importance := some "high" }] }

/-- Fixture (C4): a comparison result whose single matching fact is a bare
string (so it carries no confidence label). -/
def exComparison : ComparisonResult :=
  { matching := [.str "the mayor resigned"] }

/-- Fixture (C5): a matching fact about 45 fire victims. -/
def exMatchFact : FactVal :=
  .dict { original_fact := some "fire killed 45 people downtown",
          comparison_fact := some "the fire killed 45 people downtown" }

/-- Fixture (C5): a conflicting fact about 60 fire victims, same-fact-similar
to `exMatchFact` but not substring-related to it. -/
def exConflictFact : FactVal :=
  .dict { original := some "fire killed 60 people downtown",
          comparison := some "the fire killed 60 people downtown" }

/-- Fixture (C5): an analysis carrying the dual-classified pair. -/
def exDualAnalysis : AnalysisR :=
  { comparison_article_id := 1, accuracy_score := 70,
    matching_facts := [exMatchFact], conflicting_facts := [exConflictFact],
    analysis_details := {} }

/-- Fixture (C1): the single analysis persisted before the new attempt. -/
def exOldAnalysis : AnalysisR :=
  { comparison_article_id := 2, accuracy_score := 80,
    matching_facts := [], conflicting_facts := [], analysis_details := {} }

/-- Fixture (C1): the single fresh analysis of the new attempt. -/
def exNewAnalysis : AnalysisR :=
  { comparison_article_id := 3, accuracy_score := 60,
    matching_facts := [], conflicting_facts := [], analysis_details := {} }

/-- Fixture (C1): the pre-existing report, consistent with the database
(`sources_checked = 1` and one persisted analysis). -/
def exReport : ReportR :=
  { original_article_id := 1, overall_score := 80, confidence_level := "low",
    sources_checked := 1, summary := "s", recommendations := "r",
    detailed_results := mkDetailedResults [exOldAnalysis], merge_count := 0 }

end FactChecker

namespace FactChecker

/-!
Theorems. First the bridging lemmas connecting the kernel-reducible rational
operations to the standard ones, then helper lemmas, then one theorem per
claim.
-/

theorem qadd_eq (a b : ℚ) : qadd a b = a + b := (Rat.add_def' a b).symm

theorem qsub_eq (a b : ℚ) : qsub a b = a - b := (Rat.sub_def' a b).symm

theorem qmul_eq (a b : ℚ) : qmul a b = a * b := by
  rw [Rat.mul_def, Rat.normalize_eq_mkRat]; rfl

theorem qdiv_eq (a b : ℚ) : qdiv a b = a / b := by
  rw [qdiv, qmul_eq, show a / b = a * b.inv from rfl, Rat.inv_def]

theorem mkRat_half : (mkRat 1 2 : ℚ) = 1/2 := by
  rw [Rat.mkRat_eq_divInt, Rat.divInt_eq_div]; norm_num

theorem mkRat_two_fifths : (mkRat 2 5 : ℚ) = 2/5 := by
  rw [Rat.mkRat_eq_divInt, Rat.divInt_eq_div]; norm_num

theorem mkRat_seven_tenths : (mkRat 7 10 : ℚ) = 7/10 := by
  rw [Rat.mkRat_eq_divInt, Rat.divInt_eq_div]; norm_num

/-- C6: whenever both fact texts contain at least one numeric token,
`_resolve_fact_classification` decides by the first pair alone, returning
match exactly when the relative difference to the larger magnitude is below
30% (with 0 vs 0 counting as 0% difference, since the rational division by
zero yields 0). -/
theorem resolve_first_numeric_pair (f1 f2 : String) (n1 n2 : ℚ)
    (r1 r2 : List ℚ) (h1 : numsOf f1 = n1 :: r1) (h2 : numsOf f2 = n2 :: r2) :
    resolve_fact_classification f1 f2 =
      if |n1 - n2| / max |n1| |n2| * 100 < 30 then .matched else .conflict := by
  have key : numbers_within_tolerance n1 n2 =
      decide (|n1 - n2| / max |n1| |n2| * 100 < 30) := by
    unfold numbers_within_tolerance
    by_cases h : n1 = 0 ∧ n2 = 0
    · obtain ⟨e1, e2⟩ := h
      subst e1; subst e2
      norm_num
    · simp only [if_neg h, qsub_eq, qdiv_eq, qmul_eq]
  unfold resolve_fact_classification
  rw [h1, h2]
  simp only [key, decide_eq_true_eq]

/-- Witness for C6 at the two numeric-tolerance-law examples: 45 vs 60 is a
match (25% difference), 45 vs 100 a conflict (55% difference). -/
theorem resolve_first_numeric_pair_witness :
    resolve_fact_classification "Fire killed 45 people" "Fire killed 60 people" =
      .matched ∧
    resolve_fact_classification "Fire killed 45 people" "Fire killed 100 people" =
      .conflict := by
  constructor
  · rw [resolve_first_numeric_pair _ _ 45 60 [] [] (by decide) (by decide)]
    rw [if_pos]
    rw [← qsub_eq, ← qmul_eq, ← qdiv_eq]
    decide
  · rw [resolve_first_numeric_pair _ _ 45 100 [] [] (by decide) (by decide)]
    rw [if_neg]
    rw [← qsub_eq, ← qmul_eq, ← qdiv_eq]
    decide

/-- C7: on the pair of ambiguous-expression-law examples the code returns
conflict for both, because the keyword any — a substring of many and earlier
in the table — wins with range [0, 20]; the claimed result for the first
example is match via the many range [20, 200]. -/
theorem ambiguous_expression_any_shadows_many :
    resolve_fact_classification "many people attended" "45 people attended" =
      .conflict ∧
    check_ambiguous_expressions "many people attended" "45 people attended" =
      some false ∧
    strIn "any" (strLower "many people attended") = true ∧
    resolve_fact_classification "many people attended" "500 people attended" =
      .conflict := by decide

/-- C8: `compare_and_score` returns no Analysis exactly when the relevance
score (defaulting to 0.5 when the comparator supplied none) is strictly below
0.4, whatever the matching and conflicting content. -/
theorem relevance_gate_iff (comparison_result : ComparisonResult)
    (comparison_article : ArticleR) :
    compare_and_score comparison_result comparison_article = none ↔
      comparison_result.relevance_score.getD (1/2) < 2/5 := by
  unfold compare_and_score
  rw [mkRat_half, mkRat_two_fifths]
  by_cases h : comparison_result.relevance_score.getD (1 / 2) < 2 / 5
  · simp [h]
  · simp [h]

/-- C9: on an empty analyses list, `generate_final_report` produces exactly
the canned no-sources report: score 0, confidence low, zero sources checked,
the fixed summary and recommendation texts, and zero fact counts. -/
theorem no_sources_report_spec (original_article_id : ℕ) :
    generate_final_report original_article_id [] =
      create_no_sources_report original_article_id ∧
    (generate_final_report original_article_id []).overall_score = 0 ∧
    (generate_final_report original_article_id []).confidence_level = "low" ∧
    (generate_final_report original_article_id []).sources_checked = 0 ∧
    (generate_final_report original_article_id []).summary =
      "Unable to verify: No corroborating sources were found." ∧
    (generate_final_report original_article_id []).recommendations =
      "The article could not be fact-checked due to lack of available sources. Exercise extreme caution with this information." ∧
    (generate_final_report original_article_id
      []).detailed_results.fact_verification_details.total_matching_facts = 0 ∧
    (generate_final_report original_article_id
      []).detailed_results.fact_verification_details.total_conflicting_facts =
      0 := ⟨rfl, rfl, rfl, rfl, rfl, rfl, rfl, rfl⟩

/-- C1: with one persisted analysis, a consistent prior report
(`sources_checked = 1`) and one genuinely new analysis, the persist-then-merge
sequence of the analyze route sets `sources_checked` to 3 — the new analysis
is counted both by the database reload and as part of the new batch — where
the claim requires 1 + 1 = 2. The merge count does increase by exactly 1, and
an empty new batch is a no-op. -/
theorem merge_reports_double_count_bug :
    (analyze_merge_step exReport [exOldAnalysis] [exNewAnalysis]).1.sources_checked
      = 3 ∧
    exReport.sources_checked = 1 ∧
    (analyze_merge_step exReport [exOldAnalysis] [exNewAnalysis]).2 = 1 ∧
    (analyze_merge_step exReport [exOldAnalysis]
      [exNewAnalysis]).1.merge_count = exReport.merge_count + 1 ∧
    analyze_merge_step exReport [exOldAnalysis] [] = (exReport, 0) := by
  exact ⟨by decide, by decide, by decide, by decide, by decide⟩

/-- C5: after `review_and_reconcile_analyses`, the fixture analysis still
carries a matching fact and a conflicting fact that satisfy the same-fact
overlap test: resolution decided match (45 vs 60 is within tolerance), but
the removal step matches conflict entries by substring containment against
the match text, which fails here, so the dual classification survives. -/
theorem reconcile_dual_classification_survives :
    ∃ a ∈ review_and_reconcile_analyses [exDualAnalysis],
      ∃ m ∈ a.matching_facts, ∃ c ∈ a.conflicting_facts,
        is_same_fact (extract_fact_text m) (conflictOriginal c) = true :=
  ⟨exDualAnalysis, by decide, exMatchFact, by decide, exConflictFact,
    by decide, by decide⟩

theorem filterDupGo_eq_spec (orig : String) (ids : List ℕ)
    (db : String → Option ℕ) :
    ∀ (sources : List SourceR) (seenC seenS : List String),
      (∀ u, u ∈ seenC → u ∈ seenS) →
      (∀ u, u ∈ seenS → u ∈ seenC ∨ u = orig ∨
        (match db u with
         | some aid => decide (aid ∈ ids)
         | none => false) = true) →
      filterDupGo orig ids db sources seenC =
        sourceFilterSpecGo orig ids db sources seenS := by
  intro sources
  induction sources with
  | nil => intro seenC seenS h1 h2; rfl
  | cons s rest ih =>
    intro seenC seenS h1 h2
    cases hu : s.url with
    | none =>
      simp only [filterDupGo, sourceFilterSpecGo, hu]
      exact ih seenC seenS h1 h2
    | some url =>
      simp only [filterDupGo, sourceFilterSpecGo, hu]
      by_cases he : url = ""
      · rw [if_pos he, if_pos he]
        exact ih seenC seenS h1 h2
      · rw [if_neg he, if_neg he]
        by_cases hc : url ∈ seenC
        · rw [if_pos hc]
          have hs : url ∈ seenS := h1 url hc
          rw [if_pos (by simp [hs])]
          refine ih seenC (url :: seenS)
            (fun u hu' => List.mem_cons_of_mem _ (h1 u hu')) ?_
          intro u hu'
          rcases List.mem_cons.1 hu' with rfl | hmem
          · exact .inl hc
          · exact h2 u hmem
        · rw [if_neg hc]
          by_cases ho : url = orig
          · rw [if_pos ho, if_pos (by simp [ho])]
            refine ih seenC (url :: seenS)
              (fun u hu' => List.mem_cons_of_mem _ (h1 u hu')) ?_
            intro u hu'
            rcases List.mem_cons.1 hu' with rfl | hmem
            · exact .inr (.inl ho)
            · exact h2 u hmem
          · rw [if_neg ho]
            have keepInv1 : ∀ u, u ∈ url :: seenC → u ∈ url :: seenS := by
              intro u hu'
              rcases List.mem_cons.1 hu' with rfl | hmem
              · exact List.mem_cons_self _ _
              · exact List.mem_cons_of_mem _ (h1 u hmem)
            have keepInv2 : ∀ u, u ∈ url :: seenS → u ∈ url :: seenC ∨
                u = orig ∨ (match db u with
                  | some aid => decide (aid ∈ ids)
                  | none => false) = true := by
              intro u hu'
              rcases List.mem_cons.1 hu' with rfl | hmem
              · exact .inl (List.mem_cons_self _ _)
              · rcases h2 u hmem with h | h | h
                · exact .inl (List.mem_cons_of_mem _ h)
                · exact .inr (.inl h)
                · exact .inr (.inr h)
            have skipInv2 : ∀ hx : (match db url with
                  | some aid => decide (aid ∈ ids)
                  | none => false) = true,
                ∀ u, u ∈ url :: seenS → u ∈ seenC ∨ u = orig ∨
                  (match db u with
                    | some aid => decide (aid ∈ ids)
                    | none => false) = true := by
              intro hx u hu'
              rcases List.mem_cons.1 hu' with rfl | hmem
              · exact .inr (.inr hx)
              · exact h2 u hmem
            cases hdb : db url with
            | none =>
              simp only [hdb]
              rw [if_neg (by simp)]
              have hnotS : url ∉ seenS := by
                intro hs
                rcases h2 url hs with h | h | h
                · exact hc h
                · exact ho h
                · rw [hdb] at h; exact absurd h (by simp)
              rw [if_neg (by simp [hnotS, ho])]
              congr 1
              refine ih (url :: seenC) (url :: seenS) keepInv1 keepInv2
            | some aid =>
              simp only [hdb]
              by_cases hin : aid ∈ ids
              · rw [if_pos (by simp [hin]), if_pos (by simp [hin])]
                exact ih seenC (url :: seenS)
                  (fun u hu' => List.mem_cons_of_mem _ (h1 u hu'))
                  (skipInv2 (by rw [hdb]; simp [hin]))
              · rw [if_neg (by simp [hin])]
                have hnotS : url ∉ seenS := by
                  intro hs
                  rcases h2 url hs with h | h | h
                  · exact hc h
                  · exact ho h
                  · rw [hdb] at h; simp at h; exact hin h
                rw [if_neg (by simp [hnotS, ho, hin])]
                congr 1
                refine ih (url :: seenC) (url :: seenS) keepInv1 keepInv2

theorem filterDupGo_sublist (orig : String) (ids : List ℕ)
    (db : String → Option ℕ) :
    ∀ (sources : List SourceR) (seen : List String),
      (filterDupGo orig ids db sources seen).Sublist sources := by
  intro sources
  induction sources with
  | nil => intro seen; exact List.Sublist.refl _
  | cons s rest ih =>
    intro seen
    cases hu : s.url with
    | none =>
      simp only [filterDupGo, hu]
      exact (ih seen).cons _
    | some url =>
      simp only [filterDupGo, hu]
      by_cases he : url = ""
      · rw [if_pos he]; exact (ih seen).cons _
      · rw [if_neg he]
        by_cases hc : url ∈ seen
        · rw [if_pos hc]; exact (ih seen).cons _
        · rw [if_neg hc]
          by_cases ho : url = orig
          · rw [if_pos ho]; exact (ih seen).cons _
          · rw [if_neg ho]
            cases hdb : db url with
            | none =>
              simp only [hdb]
              rw [if_neg (by simp)]
              exact (ih (url :: seen)).cons₂ _
            | some aid =>
              simp only [hdb]
              by_cases hin : aid ∈ ids
              · rw [if_pos (by simp [hin])]
                exact (ih seen).cons _
              · rw [if_neg (by simp [hin])]
                exact (ih (url :: seen)).cons₂ _

/-- C2 (amended): `filter_duplicate_sources` drops exactly the no-URL,
earlier-seen, original-URL and already-analyzed candidates, in that
precedence, preserving the order of the survivors (it equals the spec-side
filter and is a sublist of its input); the filter-precedence example returns
the singleton first occurrence of url a, not the empty list. -/
theorem filter_duplicate_sources_spec :
    (∀ (sources : List SourceR) (original_article_url : String)
        (analyzed_article_ids : List ℕ) (articleIdByUrl : String → Option ℕ),
      filter_duplicate_sources sources original_article_url
          analyzed_article_ids articleIdByUrl =
        sourceFilterSpec sources original_article_url analyzed_article_ids
          articleIdByUrl ∧
      (filter_duplicate_sources sources original_article_url
          analyzed_article_ids articleIdByUrl).Sublist sources) ∧
    filter_duplicate_sources exSources "orig" [2] exArticleIdByUrl =
      [{ url := some "a" }] := by
  refine ⟨fun sources orig ids db => ⟨?_, ?_⟩, by decide⟩
  · exact filterDupGo_eq_spec orig ids db sources [] [] (by simp) (by simp)
  · exact filterDupGo_sublist orig ids db sources []

/-- Counterexample to C2 as stated: on the filter-precedence example the
filter returns the first occurrence of url a, not the empty list — only the
duplicate a, the original URL and the already-analyzed b are dropped. -/
theorem filter_example_not_empty :
    filter_duplicate_sources exSources "orig" [2] exArticleIdByUrl =
      [{ url := some "a" }] ∧
    filter_duplicate_sources exSources "orig" [2] exArticleIdByUrl ≠ [] := by
  decide

/-- Counterexample to C3 as stated: on generator failure with a single
low-importance WhatFact the fallback query is its event text, not the claimed
news; and on malformed generator output with a non-empty FactSet the primary
query is empty — the deterministic fallback is not used and the non-emptiness
guarantee fails. -/
theorem optimize_query_fallback_cex :
    (optimize_search_query exFactsLow .failure).primary_query =
      "storm hits city" ∧
    "storm hits city" ≠ "news" ∧
    exFactsHigh.what_facts ≠ [] ∧
    (optimize_search_query exFactsHigh (.output none)).primary_query = "" := by
  decide

theorem applyResolutions_sublist (dual : List (String × String)) :
    ∀ mc : List FactVal × List FactVal,
      (applyResolutions dual mc).1.Sublist mc.1 ∧
      (applyResolutions dual mc).2.Sublist mc.2 := by
  induction dual with
  | nil => exact fun mc => ⟨List.Sublist.refl _, List.Sublist.refl _⟩
  | cons p rest ih =>
    intro mc
    unfold applyResolutions
    rw [List.foldl_cons]
    unfold applyResolutions at ih
    rcases hr : resolve_fact_classification p.1 p.2 with _ | _
    · have h := ih (mc.1, mc.2.filter (fun c => !facts_match c p.1 p.2))
      simp only [hr]
      exact ⟨h.1, h.2.trans (List.filter_sublist _)⟩
    · have h := ih (mc.1.filter (fun m => !facts_match m p.1 p.2), mc.2)
      simp only [hr]
      exact ⟨h.1.trans (List.filter_sublist _), h.2⟩

/-- C10: `review_and_reconcile_analyses` never adds or rewrites facts — the
output has one analysis per input analysis, in order, each with its matching
and conflicting lists subsequences of the corresponding input lists and all
other fields unchanged. -/
theorem review_only_removes_facts (analyses : List AnalysisR) :
    (review_and_reconcile_analyses analyses).length = analyses.length ∧
    List.Forall₂ (fun a b =>
      b.matching_facts.Sublist a.matching_facts ∧
      b.conflicting_facts.Sublist a.conflicting_facts ∧
      b.comparison_article_id = a.comparison_article_id ∧
      b.accuracy_score = a.accuracy_score ∧
      b.analysis_details = a.analysis_details)
      analyses (review_and_reconcile_analyses analyses) := by
  constructor
  · exact List.length_map _ _
  · unfold review_and_reconcile_analyses
    rw [List.forall₂_map_right_iff, List.forall₂_same]
    intro a ha
    exact ⟨(applyResolutions_sublist _ _).1, (applyResolutions_sublist _ _).2,
      rfl, rfl, rfl⟩

theorem foldl_append_parts {α : Type} (g : α → Option String)
    (f : List String → α → List String)
    (hf : ∀ acc x, f acc x = match g x with
      | some s => acc ++ [s]
      | none => acc) :
    ∀ (l : List α) (acc : List String), l.foldl f acc = acc ++ l.filterMap g := by
  intro l
  induction l with
  | nil => intro acc; simp
  | cons x t ih =>
    intro acc
    rw [List.foldl_cons, hf, ih]
    cases hx : g x <;> simp [List.filterMap_cons, hx]

/-- C3 (amended): on generator failure the fallback query is the spec-side
formula — first sentences of the events of the first two WhatFact dict
entries and of the first Claim dict entry, importance ignored, the first two
parts joined by a space, with news when none qualify — and on malformed
generator output the primary query is the empty string. -/
theorem optimize_query_fallback_spec (facts : FactsR) :
    (optimize_search_query facts .failure).primary_query =
      fallbackQuerySpec facts ∧
    (optimize_search_query facts (.output none)).primary_query = "" := by
  constructor
  · simp only [optimize_search_query, create_fallback_query, fallbackQuerySpec]
    rw [foldl_append_parts claimFirstSentence _ ?hc,
      foldl_append_parts eventFirstSentence _ ?he, List.nil_append]
    case he =>
      intro acc x
      cases x with
      | str s => rfl
      | dict d =>
        simp only [eventFirstSentence]
        by_cases h : d.event.getD "" = "" <;> simp [h]
    case hc =>
      intro acc x
      cases x with
      | str s => rfl
      | dict d =>
        simp only [claimFirstSentence]
        by_cases h : d.claim.getD "" = "" <;> simp [h]
    simp only [List.isEmpty_iff]
  · rfl

theorem foldl_qadd_weight (w : FactVal → ℚ) (f : ℚ → FactVal → ℚ)
    (hf : ∀ acc x, f acc x = acc + w x) :
    ∀ (l : List FactVal) (acc : ℚ), l.foldl f acc = acc + (l.map w).sum := by
  intro l
  induction l with
  | nil => intro acc; simp
  | cons x t ih =>
    intro acc
    rw [List.foldl_cons, hf, ih, List.map_cons, List.sum_cons]
    ring

theorem factConfidenceWeight_nonneg (f : FactVal) :
    0 ≤ factConfidenceWeight f := by
  cases f with
  | str s => simp [factConfidenceWeight]
  | dict d =>
    simp only [factConfidenceWeight]
    split_ifs <;> norm_num

/-- C4 (amended): the comparison score is 50 when there is no fact overlap,
and otherwise the agreement percentage times (when any matching fact exists)
the average per-matching-fact weight, where a dict fact labelled high weighs
1.0, labelled medium or unlabelled 0.7, any other label 0.5, and a
bare-string matching fact weighs 0; the result always lies in [0, 100]. -/
theorem comparison_score_formula (comparison_result : ComparisonResult)
    (source_type : String) (relevance_score : ℚ) :
    calculate_comparison_score comparison_result source_type relevance_score =
      (if comparison_result.matching.length +
          comparison_result.conflicting.length = 0 then 50
       else
        min 100 ((comparison_result.matching.length : ℚ) /
          ((comparison_result.matching.length +
            comparison_result.conflicting.length : ℕ) : ℚ) * 100 *
          (if 0 < comparison_result.matching.length then
            ((comparison_result.matching.map factConfidenceWeight).sum /
              (comparison_result.matching.length : ℚ))
           else 1))) ∧
    0 ≤ calculate_comparison_score comparison_result source_type relevance_score ∧
    calculate_comparison_score comparison_result source_type relevance_score ≤
      100 := by
  have hsum : 0 ≤ (comparison_result.matching.map factConfidenceWeight).sum := by
    apply List.sum_nonneg
    intro x hx
    obtain ⟨f, _, rfl⟩ := List.mem_map.1 hx
    exact factConfidenceWeight_nonneg f
  have main : calculate_comparison_score comparison_result source_type
      relevance_score =
      (if comparison_result.matching.length +
          comparison_result.conflicting.length = 0 then 50
       else
        min 100 ((comparison_result.matching.length : ℚ) /
          ((comparison_result.matching.length +
            comparison_result.conflicting.length : ℕ) : ℚ) * 100 *
          (if 0 < comparison_result.matching.length then
            ((comparison_result.matching.map factConfidenceWeight).sum /
              (comparison_result.matching.length : ℚ))
           else 1))) := by
    simp only [calculate_comparison_score]
    rw [foldl_qadd_weight factConfidenceWeight _ ?hw, zero_add]
    case hw =>
      intro acc x
      cases x with
      | str s => simp [factConfidenceWeight]
      | dict d =>
        simp only [factConfidenceWeight]
        by_cases h1 : d.confidence.getD "medium" = "high"
        · simp [h1, qadd_eq]
        · by_cases h2 : d.confidence.getD "medium" = "medium"
          · simp [h1, h2, qadd_eq, mkRat_seven_tenths]
          · simp [h1, h2, qadd_eq, mkRat_half]
    by_cases ht : comparison_result.matching.length +
        comparison_result.conflicting.length = 0
    · simp [ht]
    · rw [if_neg ht, if_neg ht]
      by_cases hm : 0 < comparison_result.matching.length
      · rw [if_pos hm, if_pos hm, qdiv_eq, qmul_eq, qdiv_eq, qmul_eq]
      · rw [if_neg hm, if_neg hm, qdiv_eq, qmul_eq, mul_one]
  refine ⟨main, ?_, ?_⟩
  · rw [main]
    by_cases ht : comparison_result.matching.length +
        comparison_result.conflicting.length = 0
    · rw [if_pos ht]; norm_num
    · rw [if_neg ht]
      apply le_min (by norm_num)
      apply mul_nonneg
      apply mul_nonneg
      · apply div_nonneg <;> positivity
      · norm_num
      · by_cases hm : 0 < comparison_result.matching.length
        · rw [if_pos hm]
          apply div_nonneg hsum (by positivity)
        · rw [if_neg hm]; norm_num
  · rw [main]
    by_cases ht : comparison_result.matching.length +
        comparison_result.conflicting.length = 0
    · rw [if_pos ht]; norm_num
    · rw [if_neg ht]
      exact min_le_left _ _

/-- Counterexample to C4 as stated: a single bare-string matching fact
carries no confidence label, so the claim weights it 0.7 and predicts a score
of 70; the code adds no weight for non-dict facts and returns 0. -/
theorem comparison_score_string_fact_cex :
    calculate_comparison_score exComparison "news_general" (mkRat 1 2) = 0 ∧
    claimedComparisonScore exComparison = 70 ∧
    (0 : ℚ) ≠ 70 := by
  refine ⟨by decide, ?_, by norm_num⟩
  norm_num [claimedComparisonScore, claimedConfidenceWeight, exComparison]

end FactChecker
